import Mathlib

set_option maxRecDepth 512

/-!
Verification of the outcome-simulation engine of `the-wish-machine`
(`src/app.py`, `run_wish_simulation`, with the object model of
`src/quantum_state.py` and `src/choicemaker.py`).

Conventions of the shallow embedding:
* Python floats are modelled as exact rationals `ℚ` wherever the source
  arithmetic is field arithmetic (`+ - * / min max`, comparisons), and as
  reals `ℝ` where the source applies `sqrt`/`exp` (only `base_preference`
  and the baseline Gaussian histogram need those).
* Randomness is an explicit input: the one `np.random.uniform(0.8, 1.2)`
  draw, the per-trial `np.random.random()` and `np.random.beta` draws and
  the 1000 reference `np.random.beta(5, 5)` draws are parameters of the
  simulation function.  `np.random.beta` is modelled per trial as an
  oracle `ℚ → ℚ → ℚ` from the shape parameters to a variate.
* The wall clock read `int(time.time() * 1000)` is the parameter `timeMs`.
* `hashlib.md5` is implemented bit-exactly below on the UTF-8 bytes of the
  wish text, as a function on `ℕ` with explicit reduction `% 2^32`.
-/

/-! ### MD5 (hashlib.md5), on lists of bytes as `ℕ` -/

/-- Reduce to a 32-bit word. -/
def w32 (n : ℕ) : ℕ := n % 4294967296

/-- Bitwise complement on 32-bit words. -/
def bnot32 (x : ℕ) : ℕ := 4294967295 - w32 x

/-- Rotate a 32-bit word left by `n` bits. -/
def rotl32 (x n : ℕ) : ℕ := w32 (w32 x * 2 ^ n + w32 x / 2 ^ (32 - n))

/-- The 64 MD5 sine-derived round constants `K[i] = floor(2^32 * abs(sin (i+1)))`. -/
def md5K : List ℕ :=
  [3614090360, 3905402710, 606105819, 3250441966, 4118548399, 1200080426,
   2821735955, 4249261313, 1770035416, 2336552879, 4294925233, 2304563134,
   1804603682, 4254626195, 2792965006, 1236535329, 4129170786, 3225465664,
   643717713, 3921069994, 3593408605, 38016083, 3634488961, 3889429448,
   568446438, 3275163606, 4107603335, 1163531501, 2850285829, 4243563512,
   1735328473, 2368359562, 4294588738, 2272392833, 1839030562, 4259657740,
   2763975236, 1272893353, 4139469664, 3200236656, 681279174, 3936430074,
   3572445317, 76029189, 3654602809, 3873151461, 530742520, 3299628645,
   4096336452, 1126891415, 2878612391, 4237533241, 1700485571, 2399980690,
   4293915773, 2240044497, 1873313359, 4264355552, 2734768916, 1309151649,
   4149444226, 3174756917, 718787259, 3951481745]

/-- The 64 MD5 per-round left-rotation amounts. -/
def md5S : List ℕ :=
  [7, 12, 17, 22, 7, 12, 17, 22, 7, 12, 17, 22, 7, 12, 17, 22,
   5, 9, 14, 20, 5, 9, 14, 20, 5, 9, 14, 20, 5, 9, 14, 20,
   4, 11, 16, 23, 4, 11, 16, 23, 4, 11, 16, 23, 4, 11, 16, 23,
   6, 10, 15, 21, 6, 10, 15, 21, 6, 10, 15, 21, 6, 10, 15, 21]

/-- Little-endian 8-byte encoding of the bit length, as in MD5 padding. -/
def md5LenBytes (n : ℕ) : List ℕ :=
  (List.range 8).map fun i => n / 2 ^ (8 * i) % 256

/-- MD5 padding: append `0x80`, zero bytes to 56 mod 64, then the 64-bit
bit-length, little-endian. -/
def md5Pad (msg : List ℕ) : List ℕ :=
  msg ++ [128] ++ List.replicate ((56 + 64 - (msg.length + 1) % 64) % 64) 0
      ++ md5LenBytes (8 * msg.length)

/-- The `j`-th 32-bit little-endian message word of a 64-byte block. -/
def md5Word (block : List ℕ) (j : ℕ) : ℕ :=
  block.getD (4 * j) 0 + 256 * block.getD (4 * j + 1) 0
    + 65536 * block.getD (4 * j + 2) 0 + 16777216 * block.getD (4 * j + 3) 0

/-- One MD5 round `i` (0 ≤ i < 64) on the running state `(a, b, c, d)`. -/
def md5Round (block : List ℕ) (st : ℕ × ℕ × ℕ × ℕ) (i : ℕ) : ℕ × ℕ × ℕ × ℕ :=
  let a := st.1
  let b := st.2.1
  let c := st.2.2.1
  let d := st.2.2.2
  let f :=
    if i < 16 then (b &&& c) ||| (bnot32 b &&& d)
    else if i < 32 then (d &&& b) ||| (bnot32 d &&& c)
    else if i < 48 then b ^^^ c ^^^ d
    else c ^^^ (b ||| bnot32 d)
  let g :=
    if i < 16 then i
    else if i < 32 then (5 * i + 1) % 16
    else if i < 48 then (3 * i + 5) % 16
    else 7 * i % 16
  let tmp := w32 (f + a + md5K.getD i 0 + md5Word block g)
  (d, w32 (b + rotl32 tmp (md5S.getD i 0)), b, c)

/-- Process one 64-byte block, updating the four chaining words. -/
def md5Block (h : ℕ × ℕ × ℕ × ℕ) (block : List ℕ) : ℕ × ℕ × ℕ × ℕ :=
  let r := (List.range 64).foldl (md5Round block) h
  (w32 (h.1 + r.1), w32 (h.2.1 + r.2.1), w32 (h.2.2.1 + r.2.2.1),
   w32 (h.2.2.2 + r.2.2.2))

/-- Split a byte list into consecutive 64-byte chunks. -/
def chunks64 (l : List ℕ) : List (List ℕ) :=
  if h : l = [] then [] else
    l.take 64 :: chunks64 (l.drop 64)
termination_by l.length
decreasing_by
  simp only [List.length_drop]
  exact Nat.sub_lt (List.length_pos.mpr h) (by norm_num)

/-- The four 32-bit MD5 state words of a byte message. -/
def md5State (msg : List ℕ) : ℕ × ℕ × ℕ × ℕ :=
  (chunks64 (md5Pad msg)).foldl md5Block
    (1732584193, 4023233417, 2562383102, 271733878)

/-- Little-endian 4-byte encoding of a 32-bit word. -/
def le4 (x : ℕ) : List ℕ := [w32 x % 256, w32 x / 256 % 256, w32 x / 65536 % 256, w32 x / 16777216 % 256]

/-- The 16-byte MD5 digest of a byte message. -/
def md5Digest (msg : List ℕ) : List ℕ :=
  le4 (md5State msg).1 ++ le4 (md5State msg).2.1
    ++ le4 (md5State msg).2.2.1 ++ le4 (md5State msg).2.2.2

/-- UTF-8 bytes of a string, as naturals. -/
def utf8Bytes (text : String) : List ℕ :=
  text.toUTF8.toList.map fun b => b.toNat

/-- `int(hashlib.md5(wish_text.encode()).hexdigest()[:8], 16)`: the first
four digest bytes (the low-order word of the MD5 state, per RFC 1321 output
order) read as a big-endian hex number. -/
def wishHash (text : String) : ℕ :=
  16777216 * (md5Digest (utf8Bytes text)).getD 0 0
    + 65536 * (md5Digest (utf8Bytes text)).getD 1 0
    + 256 * (md5Digest (utf8Bytes text)).getD 2 0
    + (md5Digest (utf8Bytes text)).getD 3 0

/-! ### Simulation inputs

`run_wish_simulation(wish_text, intensity)` additionally consumes, in
order: one `np.random.uniform(0.8, 1.2)` draw, the wall clock, one
`np.random.random()` and one `np.random.beta` draw per trial, and 1000
`np.random.beta(5, 5)` draws for the reference sample.  All of these are
explicit inputs here. -/

/-- The per-trial randomness: `u` models `np.random.random()`, `beta` is an
oracle for `np.random.beta` mapping the shape parameters to the variate. -/
structure TrialDraws where
  u : ℚ
  beta : ℚ → ℚ → ℚ

/-- All inputs of one simulation run: the two request parameters plus the
ambient state the source reads (RNG stream and wall clock). -/
structure SimInput where
  wishText : String
  intensity : ℚ
  quantumNoise : ℚ
  timeMs : ℕ
  draws : ℕ → TrialDraws
  refBeta : ℕ → ℚ

/-! ### Parameter derivation (app.py lines 160-201) -/

/-- `num_trials = 1000`. -/
def numTrials : ℕ := 1000

/-- `entropy_factor = 0.85 + (wish_hash % 300) / 1000`. -/
def entropyFactor (hash : ℕ) : ℚ := 85 / 100 + ((hash % 300 : ℕ) : ℚ) / 1000

/-- `temporal_factor = 1.0 + (time_ms % 100) / 1000`. -/
def temporalFactor (timeMs : ℕ) : ℚ := 1 + ((timeMs % 100 : ℕ) : ℚ) / 1000

/-- `consciousness_level = 10**15 * (intensity / 50) * quantum_noise * temporal_factor`. -/
def consciousnessLevel (intensity noise temporal : ℚ) : ℚ :=
  10 ^ 15 * (intensity / 50) * noise * temporal

/-- `consciousness_weight = min(0.95, consciousness_level / (10**15 * 2))`. -/
def consciousnessWeight (level : ℚ) : ℚ :=
  min (95 / 100) (level / (10 ^ 15 * 2))

/-! ### Trial sampling (app.py lines 205-232) -/

/-- One trial: draw the influenced flag with probability `w` (the uniform
draw `d.u` falls below `w`), sample `Beta(18 + w*5, 2)` or `Beta(5, 5)`
scaled to `[0, 100]`, and clip: `max(0, min(100, outcome))`. -/
def sampleTrial (w : ℚ) (d : TrialDraws) : ℚ :=
  let outcome := if d.u < w then d.beta (18 + w * 5) 2 * 100 else d.beta 5 5 * 100
  max 0 (min 100 outcome)

/-- The 1000 trial outcomes, in order. -/
def trialOutcomes (w : ℚ) (draws : ℕ → TrialDraws) : List ℚ :=
  (List.range numTrials).map fun i => sampleTrial w (draws i)

/-- `results["manifested"]`: trials with `outcome > 50`. -/
def manifestedCountOf (outs : List ℚ) : ℕ :=
  (outs.filter fun v => 50 < v).length

/-- `results["not_manifested"]`: the `else` branch of `outcome > 50`,
i.e. trials with `outcome <= 50`. -/
def notManifestedCountOf (outs : List ℚ) : ℕ :=
  (outs.filter fun v => v ≤ 50).length

/-! ### Histogram (app.py lines 243-258) -/

/-- `bucket_index = int(min(99, max(0, outcome_value)))`; the argument is
nonnegative, so Python `int` truncation is the floor. -/
def bucketIndex (v : ℚ) : ℕ := (⌊min 99 (max 0 v)⌋).toNat

/-- `trial_histogram[bucket_index] += 1`. -/
def histAdd (hist : List ℕ) (v : ℚ) : List ℕ :=
  hist.set (bucketIndex v) (hist.getD (bucketIndex v) 0 + 1)

/-- Fold all outcomes into the 100-bucket histogram `[0] * 100`. -/
def trialHistogramOf (outs : List ℚ) : List ℕ :=
  outs.foldl histAdd (List.replicate 100 0)

/-- `std_dev = np.sqrt(num_trials * 0.5 * 0.5) / num_trials * 100`. -/
noncomputable def baselineStdDev : ℝ :=
  Real.sqrt ((numTrials : ℝ) * (1 / 2) * (1 / 2)) / (numTrials : ℝ) * 100

/-- `int(1000 * np.exp(-((i - 50) ** 2) / (2 * std_dev ** 2)))`; the
argument is positive, so Python `int` truncation is the floor. -/
noncomputable def baselineValue (i : ℕ) : ℤ :=
  ⌊(1000 : ℝ) * Real.exp (-(((i : ℝ) - 50) ^ 2) / (2 * baselineStdDev ^ 2))⌋

/-- `baseline_histogram`: the discretized Gaussian, one value per bucket. -/
noncomputable def baselineHistogram : List ℤ :=
  (List.range 100).map baselineValue

/-! ### Peak detection (app.py lines 266-297) -/

inductive PeakType where
  | consciousness
  | baseline
  | transition
deriving DecidableEq, Repr

/-- One entry of `detected_peaks`: position, height and classification. -/
structure Peak where
  position : ℕ
  height : ℕ
  ptype : PeakType
deriving DecidableEq, Repr

/-- `'consciousness' if i > 75 else 'baseline' if 40 <= i <= 60 else 'transition'`. -/
def peakTypeOf (i : ℕ) : PeakType :=
  if 75 < i then .consciousness
  else if 40 ≤ i ∧ i ≤ 60 then .baseline
  else .transition

/-- Scan buckets `range(1, 99)` for strict local maxima of height `> 10`. -/
def detectedPeaksOf (hist : List ℕ) : List Peak :=
  (List.range' 1 98).filterMap fun i =>
    if hist.getD (i - 1) 0 < hist.getD i 0 ∧ hist.getD (i + 1) 0 < hist.getD i 0
        ∧ 10 < hist.getD i 0
    then some ⟨i, hist.getD i 0, peakTypeOf i⟩ else none

/-- `detected_peaks.sort(key=lambda p: p['height'], reverse=True)`: stable
descending sort by height. -/
def sortPeaks (ps : List Peak) : List Peak :=
  ps.mergeSort fun a b => decide (b.height ≤ a.height)

/-- `detected_peaks[0]['position'] if detected_peaks else 50`, applied to
the sorted list. -/
def dominantPeakOf (sorted : List Peak) : ℕ :=
  match sorted with
  | [] => 50
  | p :: _ => p.position

/-- `min(1.0, abs(p0 - p1) / 50.0)` over the two tallest peaks if at least
two were detected, else `0.0`. -/
def separationScoreOf (sorted : List Peak) : ℚ :=
  match sorted with
  | p0 :: p1 :: _ => min 1 (|(p0.position : ℚ) - (p1.position : ℚ)| / 50)
  | _ => 0

/-! ### Variance (app.py lines 287-289) -/

/-- Arithmetic mean of a sample. -/
def sampleMean (xs : List ℚ) : ℚ := xs.sum / (xs.length : ℚ)

/-- `np.var`: population variance, mean squared deviation from the mean. -/
def popVar (xs : List ℚ) : ℚ :=
  ((xs.map fun x => (x - sampleMean xs) ^ 2).sum) / (xs.length : ℚ)

/-- `[np.random.beta(5, 5) * 100 for _ in range(1000)]`. -/
def baselineSample (refBeta : ℕ → ℚ) : List ℚ :=
  (List.range numTrials).map fun i => refBeta i * 100

/-- `trial_variance / baseline_variance if baseline_variance > 0 else 1.0`
(returned as `variance_ratio`). -/
def ratioVarianceOf (trialVar baseVar : ℚ) : ℚ :=
  if 0 < baseVar then trialVar / baseVar else 1

/-! ### The result record (the dict returned at app.py lines 299-323)

All exactly-rational fields are collected here; the two `ℝ`-valued outputs
(`preference_strength`, which applies `np.sqrt`, and `baseline_histogram`,
which applies `np.exp`) are the separate definitions `preferenceStrength`
and `baselineHistogram`. -/

structure SimResult where
  wish : String
  intensity : ℚ
  numTrialsOut : ℕ
  manifestedCount : ℕ
  notManifestedCount : ℕ
  manifestedPercent : ℚ
  notManifestedPercent : ℚ
  differenceFromBaseline : ℚ
  consciousnessLevelOut : ℚ
  trialHistogram : List ℕ
  quantumCoherence : ℚ
  coherenceLabel : String
  bimodalPeaks : List ℚ
  detectedPeaks : List Peak
  dominantPeak : ℕ
  peakShift : ℚ
  trialVariance : ℚ
  baselineVariance : ℚ
  ratioVariance : ℚ
  separationScore : ℚ
deriving Repr

/-- `base_preference = np.sqrt(intensity / 10) * entropy_factor`, returned
as `preference_strength`. -/
noncomputable def preferenceStrength (text : String) (intensity : ℚ) : ℝ :=
  Real.sqrt ((intensity : ℝ) / 10) * ((entropyFactor (wishHash text) : ℚ) : ℝ)

/-- The local `consciousness_level` of a run. -/
def simLevel (inp : SimInput) : ℚ :=
  consciousnessLevel inp.intensity inp.quantumNoise (temporalFactor inp.timeMs)

/-- The local `consciousness_weight` of a run. -/
def simWeight (inp : SimInput) : ℚ :=
  consciousnessWeight (simLevel inp)

/-- The local `trial_outcomes` of a run. -/
def simOutcomes (inp : SimInput) : List ℚ :=
  trialOutcomes (simWeight inp) inp.draws

/-- The local sorted `detected_peaks` of a run. -/
def simPeaks (inp : SimInput) : List Peak :=
  sortPeaks (detectedPeaksOf (trialHistogramOf (simOutcomes inp)))

/-- The simulation core of `run_wish_simulation` (app.py lines 139-323):
parameter derivation, 1000-trial sampling loop, histogram, peak detection
and comparison metrics, with the RNG stream and clock as explicit inputs.
The source's intermediate locals are the `sim*` stage definitions above. -/
def runWishSimulation (inp : SimInput) : SimResult :=
  { wish := inp.wishText
    intensity := inp.intensity
    numTrialsOut := numTrials
    manifestedCount := manifestedCountOf (simOutcomes inp)
    notManifestedCount := notManifestedCountOf (simOutcomes inp)
    manifestedPercent := ((manifestedCountOf (simOutcomes inp) : ℚ) / (numTrials : ℚ)) * 100
    notManifestedPercent := ((notManifestedCountOf (simOutcomes inp) : ℚ) / (numTrials : ℚ)) * 100
    differenceFromBaseline :=
      ((manifestedCountOf (simOutcomes inp) : ℚ) / (numTrials : ℚ)) * 100 - 50
    consciousnessLevelOut := simLevel inp
    trialHistogram := trialHistogramOf (simOutcomes inp)
    quantumCoherence := simWeight inp
    coherenceLabel :=
      if 7 / 10 < simWeight inp then "High"
      else if 4 / 10 < simWeight inp then "Medium" else "Low"
    bimodalPeaks := [50, 95]
    detectedPeaks := simPeaks inp
    dominantPeak := dominantPeakOf (simPeaks inp)
    peakShift := (dominantPeakOf (simPeaks inp) : ℚ) - 50
    trialVariance := popVar (simOutcomes inp)
    baselineVariance := popVar (baselineSample inp.refBeta)
    ratioVariance :=
      ratioVarianceOf (popVar (simOutcomes inp)) (popVar (baselineSample inp.refBeta))
    separationScore := separationScoreOf (simPeaks inp) }

/-! ### The object model built by the source (app.py lines 150-192)

`run_wish_simulation` constructs a `UniverseState`, two `WishState`s, a
`WaveFunction`, an `Observer` and a `ChoiceMaker` before sampling.  All of
these constructors (quantum_state.py, choicemaker.py) only assign
attributes: they read neither the RNG nor the clock, so they are modelled
as pure record builders.  `ChoiceMaker.collapse` is never called. -/

/-- `WishState.__init__` (app.py lines 120-129). -/
structure WishStateM where
  manifested : Bool
  name : String
  props : List (String × Bool)

/-- `WishState(manifested=m)`. -/
def mkWishState (m : Bool) : WishStateM :=
  { manifested := m
    name := if m then "manifested" else "not_manifested"
    props := [("manifested", m), ("not_manifested", !m)] }

/-- `WaveFunction.__init__` (quantum_state.py lines 44-46). -/
structure WaveFunctionM where
  states : List WishStateM
  amplitudes : List ℝ

/-- `Observer.__init__` (choicemaker.py lines 139-143); `phi` holds the
consciousness level, `preferences` the `±preference_strength` values. -/
structure ObserverM where
  phi : ℚ
  location : ℤ × ℤ × ℤ
  preferences : List (String × ℝ)
  time : ℚ

/-- `UniverseState.__init__` (quantum_state.py lines 76-79). -/
structure UniverseStateM where
  wavefunction : WaveFunctionM
  observersList : List ObserverM
  valueField : List (String × ℚ)

/-- `UniverseState()`: empty wavefunction, no observers, empty value field. -/
def mkUniverseState : UniverseStateM := ⟨⟨[], []⟩, [], []⟩

/-- `ChoiceMaker.__init__` (choicemaker.py lines 17-21): captures the
universe, its wavefunction, its observers and its value field. -/
structure ChoiceMakerM where
  universeRef : UniverseStateM
  psi : WaveFunctionM
  observers : List ObserverM
  values : List (String × ℚ)

/-- `ChoiceMaker(universe_state)`. -/
def mkChoiceMaker (u : UniverseStateM) : ChoiceMakerM :=
  ⟨u, u.wavefunction, u.observersList, u.valueField⟩

/-- `run_wish_simulation` with the object construction included, in source
order: build the universe, the wish states, the wavefunction, derive the
factors, build the observer and the choice maker, then run the numeric
simulation.  Returns the built objects alongside the numeric result. -/
noncomputable def runWishSimulationFull (inp : SimInput) :
    UniverseStateM × ChoiceMakerM × SimResult :=
  let universe0 := mkUniverseState
  let manifested := mkWishState true
  let notManifested := mkWishState false
  let states := [manifested, notManifested]
  let universe1 : UniverseStateM := { universe0 with wavefunction := ⟨states, []⟩ }
  let hash := wishHash inp.wishText
  let ef := entropyFactor hash
  let temporal := temporalFactor inp.timeMs
  let bp : ℝ := Real.sqrt (((inp.intensity : ℚ) : ℝ) / 10) * ((ef : ℚ) : ℝ)
  let level := consciousnessLevel inp.intensity inp.quantumNoise temporal
  let obs : ObserverM :=
    ⟨level, (0, 0, 0), [("manifested", bp), ("not_manifested", -bp)], 0⟩
  let universe2 : UniverseStateM :=
    { universe1 with observersList := universe1.observersList ++ [obs] }
  let cm := mkChoiceMaker universe2
  (universe2, cm,
  { wish := inp.wishText
    intensity := inp.intensity
    numTrialsOut := numTrials
    manifestedCount := manifestedCountOf (simOutcomes inp)
    notManifestedCount := notManifestedCountOf (simOutcomes inp)
    manifestedPercent := ((manifestedCountOf (simOutcomes inp) : ℚ) / (numTrials : ℚ)) * 100
    notManifestedPercent := ((notManifestedCountOf (simOutcomes inp) : ℚ) / (numTrials : ℚ)) * 100
    differenceFromBaseline :=
      ((manifestedCountOf (simOutcomes inp) : ℚ) / (numTrials : ℚ)) * 100 - 50
    consciousnessLevelOut := simLevel inp
    trialHistogram := trialHistogramOf (simOutcomes inp)
    quantumCoherence := simWeight inp
    coherenceLabel :=
      if 7 / 10 < simWeight inp then "High"
      else if 4 / 10 < simWeight inp then "Medium" else "Low"
    bimodalPeaks := [50, 95]
    detectedPeaks := simPeaks inp
    dominantPeak := dominantPeakOf (simPeaks inp)
    peakShift := (dominantPeakOf (simPeaks inp) : ℚ) - 50
    trialVariance := popVar (simOutcomes inp)
    baselineVariance := popVar (baselineSample inp.refBeta)
    ratioVariance :=
      ratioVarianceOf (popVar (simOutcomes inp)) (popVar (baselineSample inp.refBeta))
    separationScore := separationScoreOf (simPeaks inp) })


/-- The `entropy_factor` derived from a wish text (app.py lines 162-163). -/
def wishEntropyFactor (text : String) : ℚ := entropyFactor (wishHash text)

/-- A concrete run input used by the witness corollaries. -/
def sampleInput : SimInput :=
  ⟨"test wish", 50, 1, 0, fun _ => ⟨1 / 2, fun _ _ => 1 / 2⟩, fun _ => 1 / 2⟩

/-! ### Helper lemmas: histogram -/

/-- The bucket index never exceeds 99. -/
theorem bucketIndex_le_99 (v : ℚ) : bucketIndex v ≤ 99 := by
  unfold bucketIndex
  have h1 : min (99 : ℚ) (max 0 v) ≤ 99 := min_le_left _ _
  have h2 : ⌊min (99 : ℚ) (max 0 v)⌋ ≤ 99 := by
    calc ⌊min (99 : ℚ) (max 0 v)⌋ ≤ ⌊(99 : ℚ)⌋ := Int.floor_le_floor h1
    _ = 99 := by norm_num
  exact Int.toNat_le.mpr h2

/-- Incrementing an in-range cell raises the sum by one. -/
theorem sum_set_getD_succ :
    ∀ (l : List ℕ) (i : ℕ), i < l.length →
      (l.set i (l.getD i 0 + 1)).sum = l.sum + 1 := by
  intro l
  induction l with
  | nil => intro i hi; simp at hi
  | cons a t ih =>
    intro i hi
    cases i with
    | zero => simp [List.set]; omega
    | succ j =>
      have hj : j < t.length := by simpa using hi
      simp only [List.getD_cons_succ, List.set_cons_succ, List.sum_cons]
      rw [ih j hj]
      omega

/-- One `histAdd` step preserves the length and raises the sum by one. -/
theorem histAdd_length (hist : List ℕ) (v : ℚ) :
    (histAdd hist v).length = hist.length := by
  unfold histAdd; exact List.length_set ..

theorem histAdd_sum (hist : List ℕ) (v : ℚ) (h : hist.length = 100) :
    (histAdd hist v).sum = hist.sum + 1 := by
  unfold histAdd
  exact sum_set_getD_succ hist (bucketIndex v)
    (by rw [h]; exact Nat.lt_succ_of_le (bucketIndex_le_99 v))

/-- The fold over all outcomes keeps the length at 100 and adds the number
of outcomes to the sum. -/
theorem foldl_histAdd_invariant :
    ∀ (outs : List ℚ) (hist : List ℕ), hist.length = 100 →
      (outs.foldl histAdd hist).length = 100 ∧
        (outs.foldl histAdd hist).sum = hist.sum + outs.length := by
  intro outs
  induction outs with
  | nil => intro hist h; simpa using h
  | cons v t ih =>
    intro hist h
    have h' : (histAdd hist v).length = 100 := by rw [histAdd_length]; exact h
    have := ih (histAdd hist v) h'
    refine ⟨this.1, ?_⟩
    rw [List.foldl_cons, this.2, histAdd_sum hist v h]
    simp [List.length_cons]
    omega

/-- The trial histogram has 100 buckets. -/
theorem trialHistogramOf_length (outs : List ℚ) :
    (trialHistogramOf outs).length = 100 :=
  (foldl_histAdd_invariant outs (List.replicate 100 0) (by simp)).1

/-- The trial histogram sums to the number of outcomes. -/
theorem trialHistogramOf_sum (outs : List ℚ) :
    (trialHistogramOf outs).sum = outs.length := by
  have := (foldl_histAdd_invariant outs (List.replicate 100 0) (by simp)).2
  unfold trialHistogramOf
  rw [this]
  simp

/-- Manifested and not-manifested counts partition the outcomes. -/
theorem counts_partition (outs : List ℚ) :
    manifestedCountOf outs + notManifestedCountOf outs = outs.length := by
  unfold manifestedCountOf notManifestedCountOf
  induction outs with
  | nil => simp
  | cons v t ih =>
    by_cases h : (50 : ℚ) < v
    · have h' : ¬ v ≤ 50 := not_le.mpr h
      simp [List.filter_cons, h, h']
      omega
    · have h' : v ≤ 50 := not_lt.mp h
      simp [List.filter_cons, h, h']
      omega

/-- There are exactly 1000 trial outcomes. -/
theorem trialOutcomes_length (w : ℚ) (draws : ℕ → TrialDraws) :
    (trialOutcomes w draws).length = 1000 := by
  unfold trialOutcomes numTrials
  simp

/-! ### Helper lemmas: variance -/

/-- Population variance is nonnegative. -/
theorem popVar_nonneg (xs : List ℚ) : 0 ≤ popVar xs := by
  unfold popVar
  apply div_nonneg
  · apply List.sum_nonneg
    intro x hx
    obtain ⟨y, _, rfl⟩ := List.mem_map.mp hx
    positivity
  · positivity

/-! ### Helper lemmas: the baseline Gaussian histogram -/

/-- `2 * std_dev ** 2` is exactly 5. -/
theorem baselineStdDev_sq : 2 * baselineStdDev ^ 2 = 5 := by
  have h : Real.sqrt ((numTrials : ℝ) * (1 / 2) * (1 / 2)) ^ 2
      = (numTrials : ℝ) * (1 / 2) * (1 / 2) :=
    Real.sq_sqrt (by unfold numTrials; norm_num)
  unfold baselineStdDev
  rw [mul_pow, div_pow, h]
  unfold numTrials
  norm_num

/-- The baseline bucket value with the exponent denominator evaluated. -/
theorem baselineValue_eq (i : ℕ) :
    baselineValue i = ⌊(1000 : ℝ) * Real.exp (-(((i : ℝ) - 50) ^ 2) / 5)⌋ := by
  unfold baselineValue
  rw [baselineStdDev_sq]

/-- Every baseline bucket value is nonnegative. -/
theorem baselineValue_nonneg (i : ℕ) : 0 ≤ baselineValue i := by
  rw [baselineValue_eq]
  apply Int.floor_nonneg.mpr
  positivity

/-- The central bucket holds exactly 1000. -/
theorem baselineValue_fifty : baselineValue 50 = 1000 := by
  rw [baselineValue_eq]
  norm_num [Real.exp_zero]

/-- The bucket at 49 holds at least 800. -/
theorem baselineValue_fortynine : 800 ≤ baselineValue 49 := by
  rw [baselineValue_eq]
  apply Int.le_floor.mpr
  have harg : -((((49 : ℕ) : ℝ) - 50) ^ 2) / 5 = -(1 / 5) := by norm_num
  rw [harg]
  have h := Real.add_one_le_exp (-(1 / 5) : ℝ)
  push_cast
  nlinarith [h]

/-- The baseline histogram sums to at least 1800. -/
theorem baselineHistogram_sum_ge : 1800 ≤ baselineHistogram.sum := by
  unfold baselineHistogram
  have hbridge : ((List.range 100).map baselineValue).sum
      = ∑ i in Finset.range 100, baselineValue i := rfl
  rw [hbridge]
  have hsub : ({49, 50} : Finset ℕ) ⊆ Finset.range 100 := by decide
  have hmono := Finset.sum_le_sum_of_subset_of_nonneg hsub
    (fun i _ _ => baselineValue_nonneg i)
  have hpair : ∑ i in ({49, 50} : Finset ℕ), baselineValue i
      = baselineValue 49 + baselineValue 50 := by
    rw [Finset.sum_insert (by decide), Finset.sum_singleton]
  have h49 := baselineValue_fortynine
  have h50 := baselineValue_fifty
  omega

/-! ### Helper lemmas: peak detection and sorting -/

/-- `sortPeaks` permutes the detected peak list. -/
theorem sortPeaks_perm (ps : List Peak) : (sortPeaks ps).Perm ps :=
  List.mergeSort_perm ps _

/-- `sortPeaks` sorts by descending height. -/
theorem sortPeaks_sorted (ps : List Peak) :
    (sortPeaks ps).Pairwise fun a b => b.height ≤ a.height := by
  have h := @List.sorted_mergeSort Peak
    (fun a b => decide (b.height ≤ a.height))
    (fun a b c hab hbc => by
      simp only [decide_eq_true_eq] at *
      exact le_trans hbc hab)
    (fun a b => by
      simp only [Bool.or_eq_true, decide_eq_true_eq]
      exact le_total b.height a.height)
    ps
  exact h.imp fun hab => of_decide_eq_true hab

/-- The head of the sorted peak list is a detected peak of maximal height. -/
theorem sortPeaks_head_max (ps : List Peak) (p : Peak) (rest : List Peak)
    (h : sortPeaks ps = p :: rest) :
    p ∈ ps ∧ ∀ q ∈ ps, q.height ≤ p.height := by
  have hperm := sortPeaks_perm ps
  refine ⟨hperm.mem_iff.mp (by rw [h]; exact List.mem_cons_self _ _), ?_⟩
  intro q hq
  have hq' : q ∈ sortPeaks ps := hperm.mem_iff.mpr hq
  rw [h] at hq'
  rcases List.mem_cons.mp hq' with rfl | hq''
  · exact le_refl _
  · have hp := sortPeaks_sorted ps
    rw [h] at hp
    exact (List.pairwise_cons.mp hp).1 q hq''

/-- Characterization of membership in `detected_peaks`. -/
theorem mem_detectedPeaksOf (hist : List ℕ) (p : Peak) :
    p ∈ detectedPeaksOf hist ↔
      1 ≤ p.position ∧ p.position ≤ 98 ∧
      hist.getD (p.position - 1) 0 < hist.getD p.position 0 ∧
      hist.getD (p.position + 1) 0 < hist.getD p.position 0 ∧
      10 < hist.getD p.position 0 ∧
      p.height = hist.getD p.position 0 ∧
      p.ptype = peakTypeOf p.position := by
  unfold detectedPeaksOf
  rw [List.mem_filterMap]
  constructor
  · rintro ⟨i, hi, hf⟩
    rw [List.mem_range'_1] at hi
    by_cases hc : hist.getD (i - 1) 0 < hist.getD i 0 ∧
        hist.getD (i + 1) 0 < hist.getD i 0 ∧ 10 < hist.getD i 0
    · rw [if_pos hc] at hf
      cases hf
      refine ⟨hi.1, ?_, hc.1, hc.2.1, hc.2.2, rfl, rfl⟩
      show i ≤ 98
      omega
    · rw [if_neg hc] at hf
      cases hf
  · rintro ⟨h1, h2, h3, h4, h5, h6, h7⟩
    refine ⟨p.position, List.mem_range'_1.mpr ⟨h1, by omega⟩, ?_⟩
    rw [if_pos ⟨h3, h4, h5⟩]
    cases p
    simp only at h6 h7
    rw [h6, h7]

/-! ### Bridges from the result record to the stage functions -/

theorem res_manifestedCount (inp : SimInput) :
    (runWishSimulation inp).manifestedCount = manifestedCountOf (simOutcomes inp) := by simp only [runWishSimulation, simPeaks]

theorem res_notManifestedCount (inp : SimInput) :
    (runWishSimulation inp).notManifestedCount = notManifestedCountOf (simOutcomes inp) := by simp only [runWishSimulation, simPeaks]

theorem res_trialHistogram (inp : SimInput) :
    (runWishSimulation inp).trialHistogram = trialHistogramOf (simOutcomes inp) := by simp only [runWishSimulation, simPeaks]

theorem res_trialVariance (inp : SimInput) :
    (runWishSimulation inp).trialVariance = popVar (simOutcomes inp) := by simp only [runWishSimulation, simPeaks]

theorem res_baselineVariance (inp : SimInput) :
    (runWishSimulation inp).baselineVariance = popVar (baselineSample inp.refBeta) := by simp only [runWishSimulation, simPeaks]

theorem res_ratioVariance (inp : SimInput) :
    (runWishSimulation inp).ratioVariance
      = ratioVarianceOf (popVar (simOutcomes inp)) (popVar (baselineSample inp.refBeta)) := by simp only [runWishSimulation, simPeaks]

theorem res_detectedPeaks (inp : SimInput) :
    (runWishSimulation inp).detectedPeaks
      = sortPeaks (detectedPeaksOf (trialHistogramOf (simOutcomes inp))) := by simp only [runWishSimulation, simPeaks]

theorem res_dominantPeak (inp : SimInput) :
    (runWishSimulation inp).dominantPeak
      = dominantPeakOf (sortPeaks (detectedPeaksOf (trialHistogramOf (simOutcomes inp)))) := by simp only [runWishSimulation, simPeaks]

theorem res_quantumCoherence (inp : SimInput) :
    (runWishSimulation inp).quantumCoherence = simWeight inp := by simp only [runWishSimulation, simPeaks]

theorem res_separationScore (inp : SimInput) :
    (runWishSimulation inp).separationScore
      = separationScoreOf (sortPeaks (detectedPeaksOf (trialHistogramOf (simOutcomes inp)))) := by
  simp only [runWishSimulation, simPeaks]

/-! ### Claim C1 -/

/-- Claim C1: for every wish text and every intensity in `[1, 100]` (and
any RNG stream and clock value), the result satisfies
`manifested_count + not_manifested_count = 1000`, the 100-bucket trial
histogram sums to exactly 1000, and every bucket index used stays in
`[0, 99]` (bucket values are naturals, hence nonnegative integers). -/
theorem claim1_counts_histogram (inp : SimInput)
    (h1 : 1 ≤ inp.intensity) (h2 : inp.intensity ≤ 100) :
    (runWishSimulation inp).manifestedCount
        + (runWishSimulation inp).notManifestedCount = 1000 ∧
    (runWishSimulation inp).trialHistogram.sum = 1000 ∧
    (runWishSimulation inp).trialHistogram.length = 100 ∧
    ∀ v : ℚ, bucketIndex v ≤ 99 := by
  refine ⟨?_, ?_, ?_, fun v => bucketIndex_le_99 v⟩
  · rw [res_manifestedCount, res_notManifestedCount, counts_partition]
    unfold simOutcomes
    exact trialOutcomes_length _ _
  · rw [res_trialHistogram, trialHistogramOf_sum]
    unfold simOutcomes
    exact trialOutcomes_length _ _
  · rw [res_trialHistogram]
    exact trialHistogramOf_length _

theorem claim1_witness :
    (runWishSimulation sampleInput).manifestedCount
        + (runWishSimulation sampleInput).notManifestedCount = 1000 ∧
    (runWishSimulation sampleInput).trialHistogram.sum = 1000 ∧
    (runWishSimulation sampleInput).trialHistogram.length = 100 ∧
    ∀ v : ℚ, bucketIndex v ≤ 99 :=
  claim1_counts_histogram sampleInput (by decide) (by decide)

/-! ### Claim C2 -/

/-- Claim C2 counterexample: the baseline histogram returned with every
result (it is a constant, independent of the input) does not sum to 1000:
its central buckets alone already exceed 1000. -/
theorem claim2_counterexample : baselineHistogram.sum ≠ 1000 := by
  have := baselineHistogram_sum_ge
  omega

/-- Claim C2 amended: for every valid input the trial histogram sums to
1000, but the baseline histogram — the discretized Gaussian centered at
bucket 50 — is unnormalized and does not sum to 1000 (its sum is at least
1800). -/
theorem claim2_amended (inp : SimInput)
    (h1 : 1 ≤ inp.intensity) (h2 : inp.intensity ≤ 100) :
    (runWishSimulation inp).trialHistogram.sum = 1000 ∧
    baselineHistogram.sum ≠ 1000 ∧ 1800 ≤ baselineHistogram.sum := by
  refine ⟨?_, ?_, baselineHistogram_sum_ge⟩
  · rw [res_trialHistogram, trialHistogramOf_sum]
    unfold simOutcomes
    exact trialOutcomes_length _ _
  · have := baselineHistogram_sum_ge
    omega

theorem claim2_witness :
    (runWishSimulation sampleInput).trialHistogram.sum = 1000 ∧
    baselineHistogram.sum ≠ 1000 ∧ 1800 ≤ baselineHistogram.sum :=
  claim2_amended sampleInput (by decide) (by decide)

/-! ### Claim C3 -/

/-- Claim C3: for intensity in `[1, 100]` and any noise and temporal
factors `≥ 0`, the consciousness weight equals
`min(0.95, (intensity/50 * noise * temporal) / 2)`, lies in `[0, 0.95]`,
and equals exactly `0.5` at intensity 50 with both factors 1. -/
theorem claim3_consciousness_weight (i n t : ℚ)
    (hi1 : 1 ≤ i) (hi2 : i ≤ 100) (hn : 0 ≤ n) (ht : 0 ≤ t) :
    consciousnessWeight (consciousnessLevel i n t)
        = min (95 / 100) (i / 50 * n * t / 2) ∧
    0 ≤ consciousnessWeight (consciousnessLevel i n t) ∧
    consciousnessWeight (consciousnessLevel i n t) ≤ 95 / 100 ∧
    consciousnessWeight (consciousnessLevel 50 1 1) = 1 / 2 := by
  have heq : consciousnessLevel i n t / (10 ^ 15 * 2) = i / 50 * n * t / 2 := by
    unfold consciousnessLevel
    ring
  have hi0 : (0 : ℚ) ≤ i := le_trans zero_le_one hi1
  have hmid : consciousnessWeight (consciousnessLevel 50 1 1) = 1 / 2 := by
    unfold consciousnessWeight consciousnessLevel
    rw [show (10 : ℚ) ^ 15 * (50 / 50) * 1 * 1 / (10 ^ 15 * 2) = 1 / 2 by norm_num]
    exact min_eq_right (by norm_num)
  refine ⟨?_, ?_, min_le_left _ _, hmid⟩
  · unfold consciousnessWeight
    rw [heq]
  · unfold consciousnessWeight
    rw [heq]
    apply le_min (by norm_num)
    have h1 : 0 ≤ i / 50 := by positivity
    have h2 : 0 ≤ i / 50 * n := mul_nonneg h1 hn
    have h3 : 0 ≤ i / 50 * n * t := mul_nonneg h2 ht
    linarith

theorem claim3_witness :
    consciousnessWeight (consciousnessLevel 50 1 1)
        = min (95 / 100) ((50 : ℚ) / 50 * 1 * 1 / 2) ∧
    0 ≤ consciousnessWeight (consciousnessLevel 50 1 1) ∧
    consciousnessWeight (consciousnessLevel 50 1 1) ≤ 95 / 100 ∧
    consciousnessWeight (consciousnessLevel 50 1 1) = 1 / 2 :=
  claim3_consciousness_weight 50 1 1 (by decide) (by decide) (by decide) (by decide)

/-! ### Claim C4 -/

/-- Claim C4: each trial draws the influenced flag with probability
`consciousness_weight` (the uniform draw falls below the weight); if
influenced the value is the `Beta(18 + 5w, 2)` variate scaled to
`[0, 100]`, with `18 ≤ α = 18 + 5w ≤ 23`, otherwise the `Beta(5, 5)`
variate scaled to `[0, 100]`; the value is clipped to `[0, 100]`; and the
trial counts as manifested exactly when the value strictly exceeds 50. -/
theorem claim4_trial_sampling (w : ℚ) (h0 : 0 ≤ w) (h1 : w ≤ 95 / 100)
    (d : TrialDraws) :
    (d.u < w → sampleTrial w d = max 0 (min 100 (d.beta (18 + w * 5) 2 * 100))
      ∧ 18 ≤ 18 + w * 5 ∧ 18 + w * 5 ≤ 23) ∧
    (¬ d.u < w → sampleTrial w d = max 0 (min 100 (d.beta 5 5 * 100))) ∧
    0 ≤ sampleTrial w d ∧ sampleTrial w d ≤ 100 ∧
    (manifestedCountOf [sampleTrial w d] = 1 ↔ 50 < sampleTrial w d) ∧
    (notManifestedCountOf [sampleTrial w d] = 1 ↔ sampleTrial w d ≤ 50) := by
  refine ⟨?_, ?_, ?_, ?_, ?_, ?_⟩
  · intro hu
    refine ⟨by unfold sampleTrial; rw [if_pos hu], by linarith, by linarith⟩
  · intro hu
    unfold sampleTrial
    rw [if_neg hu]
  · exact le_max_left _ _
  · exact max_le (by norm_num) (min_le_left _ _)
  · unfold manifestedCountOf
    by_cases h : (50 : ℚ) < sampleTrial w d
    · simp [List.filter_cons, h]
    · simp [List.filter_cons, h]
  · unfold notManifestedCountOf
    by_cases h : sampleTrial w d ≤ 50
    · simp [List.filter_cons, h]
    · simp [List.filter_cons, h]

theorem claim4_witness :
    0 ≤ sampleTrial (1 / 2) ⟨1 / 2, fun _ _ => 1 / 2⟩ ∧
    sampleTrial (1 / 2) ⟨1 / 2, fun _ _ => 1 / 2⟩ ≤ 100 :=
  ⟨(claim4_trial_sampling (1 / 2) (by norm_num) (by norm_num)
      ⟨1 / 2, fun _ _ => 1 / 2⟩).2.2.1,
   (claim4_trial_sampling (1 / 2) (by norm_num) (by norm_num)
      ⟨1 / 2, fun _ _ => 1 / 2⟩).2.2.2.1⟩

/-! ### Claim C5 -/

/-- The hash parsed from the first eight hex digits is a 32-bit value. -/
theorem wishHash_lt (text : String) : wishHash text < 2 ^ 32 := by
  have e0 : (md5Digest (utf8Bytes text)).getD 0 0
      = w32 (md5State (utf8Bytes text)).1 % 256 := rfl
  have e1 : (md5Digest (utf8Bytes text)).getD 1 0
      = w32 (md5State (utf8Bytes text)).1 / 256 % 256 := rfl
  have e2 : (md5Digest (utf8Bytes text)).getD 2 0
      = w32 (md5State (utf8Bytes text)).1 / 65536 % 256 := rfl
  have e3 : (md5Digest (utf8Bytes text)).getD 3 0
      = w32 (md5State (utf8Bytes text)).1 / 16777216 % 256 := rfl
  have h0 : w32 (md5State (utf8Bytes text)).1 % 256 < 256 :=
    Nat.mod_lt _ (by norm_num)
  have h1 : w32 (md5State (utf8Bytes text)).1 / 256 % 256 < 256 :=
    Nat.mod_lt _ (by norm_num)
  have h2 : w32 (md5State (utf8Bytes text)).1 / 65536 % 256 < 256 :=
    Nat.mod_lt _ (by norm_num)
  have h3 : w32 (md5State (utf8Bytes text)).1 / 16777216 % 256 < 256 :=
    Nat.mod_lt _ (by norm_num)
  unfold wishHash
  rw [e0, e1, e2, e3]
  omega

/-- Claim C5: the entropy factor is `0.85 + (hash % 300) / 1000` over the
32-bit number parsed from the first eight hex digits of the MD5 digest of
the text, always lies in `[0.85, 1.15]`, and depends on the text alone:
with the same text it is unchanged under any intensity, RNG draws
(`quantumNoise`, `draws`, `refBeta`) and clock value. -/
theorem claim5_entropy_factor (text : String) :
    wishEntropyFactor text
        = 85 / 100 + ((wishHash text % 300 : ℕ) : ℚ) / 1000 ∧
    wishHash text < 2 ^ 32 ∧
    85 / 100 ≤ wishEntropyFactor text ∧
    wishEntropyFactor text ≤ 115 / 100 ∧
    ∀ (i1 i2 n1 n2 : ℚ) (t1 t2 : ℕ) (d1 d2 : ℕ → TrialDraws) (r1 r2 : ℕ → ℚ),
      wishEntropyFactor (SimInput.mk text i1 n1 t1 d1 r1).wishText
        = wishEntropyFactor (SimInput.mk text i2 n2 t2 d2 r2).wishText := by
  have hb : (wishHash text % 300 : ℕ) ≤ 299 := by
    have := Nat.mod_lt (wishHash text) (show 0 < 300 by norm_num)
    omega
  have hcast : ((wishHash text % 300 : ℕ) : ℚ) ≤ 299 := by exact_mod_cast hb
  have hcast0 : (0 : ℚ) ≤ ((wishHash text % 300 : ℕ) : ℚ) := Nat.cast_nonneg _
  refine ⟨rfl, wishHash_lt text, ?_, ?_, fun _ _ _ _ _ _ _ _ _ _ => rfl⟩
  · unfold wishEntropyFactor entropyFactor
    linarith
  · unfold wishEntropyFactor entropyFactor
    linarith

/-! ### Claim C6 -/

/-- Claim C6: peak detection scans only buckets 1 through 98; bucket `i`
yields a peak exactly when its count strictly exceeds both neighbours and
10; a peak is classified `consciousness` when its position exceeds 75,
`baseline` when in `[40, 60]`, else `transition`; the peak list is sorted
descending by height; and the dominant peak is the position of a tallest
detected peak, defaulting to 50 when none was detected. -/
theorem claim6_peak_detection (hist : List ℕ) :
    (∀ p : Peak, p ∈ detectedPeaksOf hist ↔
      (1 ≤ p.position ∧ p.position ≤ 98 ∧
        hist.getD (p.position - 1) 0 < hist.getD p.position 0 ∧
        hist.getD (p.position + 1) 0 < hist.getD p.position 0 ∧
        10 < hist.getD p.position 0 ∧
        p.height = hist.getD p.position 0 ∧ p.ptype = peakTypeOf p.position)) ∧
    (∀ p ∈ detectedPeaksOf hist,
      p.ptype = if 75 < p.position then PeakType.consciousness
        else if 40 ≤ p.position ∧ p.position ≤ 60 then PeakType.baseline
        else PeakType.transition) ∧
    ((sortPeaks (detectedPeaksOf hist)).Pairwise fun a b => b.height ≤ a.height) ∧
    ((sortPeaks (detectedPeaksOf hist)).Perm (detectedPeaksOf hist)) ∧
    (detectedPeaksOf hist = [] →
      dominantPeakOf (sortPeaks (detectedPeaksOf hist)) = 50) ∧
    (detectedPeaksOf hist ≠ [] → ∃ p, p ∈ detectedPeaksOf hist ∧
      dominantPeakOf (sortPeaks (detectedPeaksOf hist)) = p.position ∧
      ∀ q ∈ detectedPeaksOf hist, q.height ≤ p.height) := by
  refine ⟨mem_detectedPeaksOf hist, ?_, sortPeaks_sorted _, sortPeaks_perm _, ?_, ?_⟩
  · intro p hp
    have h := ((mem_detectedPeaksOf hist p).mp hp).2.2.2.2.2.2
    rw [h]
    unfold peakTypeOf
    rfl
  · intro h
    rw [h]
    unfold sortPeaks
    rw [List.mergeSort_nil]
    rfl
  · intro h
    have hne : sortPeaks (detectedPeaksOf hist) ≠ [] := by
      intro h0
      have hperm := sortPeaks_perm (detectedPeaksOf hist)
      rw [h0] at hperm
      exact h hperm.symm.eq_nil
    obtain ⟨p, rest, hcons⟩ := List.exists_cons_of_ne_nil hne
    have hm := sortPeaks_head_max _ p rest hcons
    refine ⟨p, hm.1, ?_, hm.2⟩
    rw [hcons]
    rfl

/-! ### Claim C7 -/

/-- Claim C7: the separation score is
`min(1, |position₁ − position₂| / 50)` over the two tallest peaks when at
least two peaks were detected, `0` otherwise, and lies in `[0, 1]` in every
case; the run's `separation_score` field is this value applied to the
sorted peak list. -/
theorem claim7_separation_score (ps : List Peak) :
    (∀ p0 p1 rest, ps = p0 :: p1 :: rest →
      separationScoreOf ps = min 1 (|(p0.position : ℚ) - (p1.position : ℚ)| / 50)) ∧
    (ps.length < 2 → separationScoreOf ps = 0) ∧
    0 ≤ separationScoreOf ps ∧ separationScoreOf ps ≤ 1 ∧
    ∀ inp : SimInput, (runWishSimulation inp).separationScore
      = separationScoreOf (simPeaks inp) := by
  refine ⟨?_, ?_, ?_, ?_, fun inp => rfl⟩
  · rintro p0 p1 rest rfl
    rfl
  · intro hlen
    match ps, hlen with
    | [], _ => rfl
    | [p], _ => rfl
  · match ps with
    | [] => exact le_refl _
    | [p] => exact le_refl _
    | p0 :: p1 :: rest =>
      exact le_min zero_le_one (by positivity)
  · match ps with
    | [] => exact zero_le_one
    | [p] => exact zero_le_one
    | p0 :: p1 :: rest => exact min_le_left _ _

/-! ### Claim C8 -/

/-- Claim C8: the variance ratio equals
`trial_variance / baseline_variance` whenever the fresh 1000-draw
`Beta(5, 5)` reference sample has positive variance, and is defined as 1
when the baseline variance is 0; the baseline variance is never negative,
so the `baseline_variance > 0` guard fails only in the zero case and the
division-by-zero branch is never taken. -/
theorem claim8_variance_ratio (inp : SimInput) :
    0 ≤ (runWishSimulation inp).baselineVariance ∧
    (0 < (runWishSimulation inp).baselineVariance →
      (runWishSimulation inp).ratioVariance
        = (runWishSimulation inp).trialVariance
            / (runWishSimulation inp).baselineVariance) ∧
    ((runWishSimulation inp).baselineVariance = 0 →
      (runWishSimulation inp).ratioVariance = 1) := by
  rw [res_baselineVariance, res_ratioVariance, res_trialVariance]
  refine ⟨popVar_nonneg _, ?_, ?_⟩
  · intro h
    unfold ratioVarianceOf
    rw [if_pos h]
  · intro h
    unfold ratioVarianceOf
    rw [h, if_neg (lt_irrefl 0)]

/-! ### Claim C9 -/

/-- Claim C9: with the RNG stream fixed (`quantumNoise`, `draws`,
`refBeta`) and the clock reading fixed (`timeMs`), two runs on the same
`(text, intensity)` produce identical numeric outputs in every field of
the result, including the separately computed `preference_strength` (the
baseline histogram is a constant, independent of all inputs). -/
theorem claim9_determinism (a b : SimInput)
    (ht : a.wishText = b.wishText) (hi : a.intensity = b.intensity)
    (hn : a.quantumNoise = b.quantumNoise) (hm : a.timeMs = b.timeMs)
    (hd : a.draws = b.draws) (hr : a.refBeta = b.refBeta) :
    runWishSimulation a = runWishSimulation b ∧
    preferenceStrength a.wishText a.intensity
      = preferenceStrength b.wishText b.intensity := by
  obtain ⟨a1, a2, a3, a4, a5, a6⟩ := a
  obtain ⟨b1, b2, b3, b4, b5, b6⟩ := b
  dsimp only at ht hi hn hm hd hr
  subst ht
  subst hi
  subst hn
  subst hm
  subst hd
  subst hr
  exact ⟨rfl, rfl⟩

theorem claim9_witness :
    runWishSimulation sampleInput = runWishSimulation sampleInput ∧
    preferenceStrength sampleInput.wishText sampleInput.intensity
      = preferenceStrength sampleInput.wishText sampleInput.intensity :=
  claim9_determinism sampleInput sampleInput rfl rfl rfl rfl rfl rfl

/-! ### Claim C10 -/

/-- Claim C10: the objects `run_wish_simulation` builds first (the
universe state, the two wish states, the wavefunction, the observer and
the choice maker) never feed the numeric result, and no method of theirs
(`ChoiceMaker.collapse` included) is invoked: the variant with the object
construction deleted returns the identical result for every input, RNG
stream and clock reading; the choice maker merely captures the constructed
universe, which holds exactly the one observer. -/
theorem claim10_objects_inert (inp : SimInput) :
    (runWishSimulationFull inp).2.2 = runWishSimulation inp ∧
    (runWishSimulationFull inp).2.1
      = mkChoiceMaker (runWishSimulationFull inp).1 ∧
    (runWishSimulationFull inp).1.observersList.length = 1 :=
  ⟨rfl, rfl, rfl⟩
